import Mathlib

/-!
Shallow embedding of `polyfile/expressions.py`: the token model, the operator
table, the tokenizer, the shunting-yard infix-to-RPN converter, and the
postfix evaluator, together with theorems settling the frozen claims.

Python machine integers are arbitrary precision, so they are modelled as
`Int`.  Python exceptions are modelled as an error type `PyErr`; code that
can raise returns `Except PyErr _`.  Dynamic Python values flowing through
the evaluator are modelled by the closed `Value` type (integers, booleans,
text, byte sequences, nested mappings), and the evaluator's stack slots by
`StackVal` (unexpanded tokens, resolved values, deferred exception values,
and the tuples produced by the ternary-else operator).
-/

/-- Python exception objects, by class, each carrying its message.
`str`/`repr` subtleties of message formatting are modelled approximately;
the exception class is modelled exactly. -/
inductive PyErr where
| keyError (msg : String)
| valueError (msg : String)
| typeError (msg : String)
| indexError (msg : String)
| zeroDivisionError (msg : String)
| attributeError (msg : String)
| runtimeError (msg : String)
deriving DecidableEq, Repr

/-- The `Operator` enumeration of `expressions.py` (one constructor per
enum member, including the synthetic `GETITEM`). -/
inductive Operator where
| ENUM_ACCESSOR
| MEMBER_ACCESS
| UNARY_PLUS
| UNARY_MINUS
| LOGICAL_NOT
| BITWISE_NOT
| MULTIPLICATION
| DIVISION
| REMAINDER
| ADDITION
| SUBTRACTION
| BITWISE_LEFT_SHIFT
| BITWISE_RIGHT_SHIFT
| LESS_THAN
| GREATER_THAN
| LESS_THAN_EQUAL
| GREATER_THAN_EQUAL
| EQUALS
| NOT_EQUAL
| BITWISE_AND
| BITWISE_XOR
| BITWISE_OR
| LOGICAL_AND
| LOGICAL_OR
| TERNARY_ELSE
| TERNARY_CONDITIONAL
| GETITEM
deriving DecidableEq, Repr

/-- The `token` field of each `Operator` member: its surface spelling. -/
def Operator.token : Operator → String
| .ENUM_ACCESSOR => "::"
| .MEMBER_ACCESS => "."
| .UNARY_PLUS => "+"
| .UNARY_MINUS => "-"
| .LOGICAL_NOT => "not"
| .BITWISE_NOT => "~"
| .MULTIPLICATION => "*"
| .DIVISION => "/"
| .REMAINDER => "%"
| .ADDITION => "+"
| .SUBTRACTION => "-"
| .BITWISE_LEFT_SHIFT => "<<"
| .BITWISE_RIGHT_SHIFT => ">>"
| .LESS_THAN => "<"
| .GREATER_THAN => ">"
| .LESS_THAN_EQUAL => "<="
| .GREATER_THAN_EQUAL => ">="
| .EQUALS => "=="
| .NOT_EQUAL => "!="
| .BITWISE_AND => "&"
| .BITWISE_XOR => "^"
| .BITWISE_OR => "|"
| .LOGICAL_AND => "and"
| .LOGICAL_OR => "or"
| .TERNARY_ELSE => ":"
| .TERNARY_CONDITIONAL => "?"
| .GETITEM => "__getitem__"

/-- The `priority` field: a numerically lower value binds tighter. -/
def Operator.priority : Operator → Nat
| .ENUM_ACCESSOR => 0
| .MEMBER_ACCESS => 1
| .UNARY_PLUS => 2
| .UNARY_MINUS => 2
| .LOGICAL_NOT => 2
| .BITWISE_NOT => 2
| .MULTIPLICATION => 3
| .DIVISION => 3
| .REMAINDER => 3
| .ADDITION => 4
| .SUBTRACTION => 4
| .BITWISE_LEFT_SHIFT => 5
| .BITWISE_RIGHT_SHIFT => 5
| .LESS_THAN => 6
| .GREATER_THAN => 6
| .LESS_THAN_EQUAL => 6
| .GREATER_THAN_EQUAL => 6
| .EQUALS => 7
| .NOT_EQUAL => 7
| .BITWISE_AND => 8
| .BITWISE_XOR => 9
| .BITWISE_OR => 10
| .LOGICAL_AND => 11
| .LOGICAL_OR => 12
| .TERNARY_ELSE => 13
| .TERNARY_CONDITIONAL => 14
| .GETITEM => 1

/-- The `left_associative` field (the constructor's `is_left_associative`
argument, defaulting to `True`). -/
def Operator.left_associative : Operator → Bool
| .UNARY_PLUS => false
| .UNARY_MINUS => false
| .LOGICAL_NOT => false
| .BITWISE_NOT => false
| .TERNARY_ELSE => false
| .TERNARY_CONDITIONAL => false
| _ => true

/-- The `arity` field (1 for the four unary operators, 2 otherwise). -/
def Operator.arity : Operator → Nat
| .UNARY_PLUS => 1
| .UNARY_MINUS => 1
| .LOGICAL_NOT => 1
| .BITWISE_NOT => 1
| _ => 2

/-- The `multiple_arity` flag: `True` only for unary `+`/`-`, which are kept
out of the `OPERATORS_BY_NAME` lookup table. -/
def Operator.multiple_arity : Operator → Bool
| .UNARY_PLUS => true
| .UNARY_MINUS => true
| _ => false

/-- The per-operand `expand` policy: the constructor argument where given,
else `(True,) * arity`. -/
def Operator.expand : Operator → List Bool
| .ENUM_ACCESSOR => [true, false]
| .MEMBER_ACCESS => [true, false]
| .TERNARY_ELSE => [false, false]
| .TERNARY_CONDITIONAL => [true, false]
| op => List.replicate op.arity true

/-- `OPERATORS_BY_NAME`: token string to operator, for every member whose
`multiple_arity` flag is false.  `'+'`/`'-'` therefore resolve to the binary
`ADDITION`/`SUBTRACTION` members. -/
def OPERATORS_BY_NAME : String → Option Operator
| "::" => some .ENUM_ACCESSOR
| "." => some .MEMBER_ACCESS
| "not" => some .LOGICAL_NOT
| "~" => some .BITWISE_NOT
| "*" => some .MULTIPLICATION
| "/" => some .DIVISION
| "%" => some .REMAINDER
| "+" => some .ADDITION
| "-" => some .SUBTRACTION
| "<<" => some .BITWISE_LEFT_SHIFT
| ">>" => some .BITWISE_RIGHT_SHIFT
| "<" => some .LESS_THAN
| ">" => some .GREATER_THAN
| "<=" => some .LESS_THAN_EQUAL
| ">=" => some .GREATER_THAN_EQUAL
| "==" => some .EQUALS
| "!=" => some .NOT_EQUAL
| "&" => some .BITWISE_AND
| "^" => some .BITWISE_XOR
| "|" => some .BITWISE_OR
| "and" => some .LOGICAL_AND
| "or" => some .LOGICAL_OR
| ":" => some .TERNARY_ELSE
| "?" => some .TERNARY_CONDITIONAL
| "__getitem__" => some .GETITEM
| _ => none

/-- The token model: `OpenParen`, `CloseParen`, `OpenBracket`,
`CloseBracket`, `OperatorToken(op)`, `IdentifierToken(name)` and
`IntegerToken(raw_str, value)`. -/
inductive Token where
| openParen
| closeParen
| openBracket
| closeBracket
| operatorToken (op : Operator)
| identifierToken (name : String)
| integerToken (raw : String) (value : Int)
deriving DecidableEq, Repr

/-- `len(token)`: the length of the raw text the token was built from. -/
def Token.rawLen : Token → Nat
| .openParen => 1
| .closeParen => 1
| .openBracket => 1
| .closeBracket => 1
| .operatorToken op => op.token.length
| .identifierToken n => n.length
| .integerToken raw _ => raw.length

/-- The dynamic values handled by the evaluator: Python ints, bools, text
strings, byte sequences (lists of byte values) and nested string-keyed
mappings (enum namespaces / the assignments). -/
inductive Value where
| int (n : Int)
| bool (b : Bool)
| str (s : String)
| bytes (bs : List Nat)
| map (entries : List (String × Value))

/-- An entry of the evaluator's value stack: an unexpanded token, a
resolved value, a deferred exception value, or a tuple (as produced by the
ternary-else operator; general length, since Python tuples concatenate). -/
inductive StackVal where
| tok (t : Token)
| val (v : Value)
| exc (e : PyErr)
| tup (items : List StackVal)

/-- The assignments mapping passed to `interpret`, modelled as an
association list (Python dict keys are unique; first match wins). -/
def Assignments := List (String × Value)

/-- Dict lookup on an association list. -/
def lookupAsg (k : String) : List (String × Value) → Option Value
| [] => none
| (a, v) :: rest => if a = k then some v else lookupAsg k rest

/-- `if b then 1 else 0`: Python `bool` is an `int` subtype. -/
def boolInt (b : Bool) : Int := if b then 1 else 0

/-- Big-endian fold of a byte sequence, as `int.from_bytes(v, 'big')`. -/
def fromBytesBE (bs : List Nat) : Int :=
  bs.foldl (fun acc b => acc * 256 + (b : Int)) 0

/-- `bytes(v)` on a value that is neither an int nor already a
bytes/str/bytearray (the fall-through of `to_int`): succeeds only on a
tuple whose members are ints (or bools) in `range(0, 256)`; a tuple member
out of range raises `ValueError`, all other shapes raise `TypeError`. -/
def tupleByte : StackVal → Except PyErr Nat
| .val (.int n) =>
  if 0 ≤ n ∧ n < 256 then .ok n.toNat
  else .error (.valueError "bytes must be in range(0, 256)")
| .val (.bool b) => .ok (if b then 1 else 0)
| _ => .error (.typeError "an integer is required")

/-- See `tupleByte`: the whole `bytes(v)` attempt over a tuple, mapping
`tupleByte` over the members; any non-tuple shape raises `TypeError`
(matching `bytes(obj)` on dicts, tokens and exception objects). -/
def pyBytesOf : StackVal → Except PyErr (List Nat)
| .tup xs => xs.mapM tupleByte
| _ => .error (.typeError "cannot convert object to bytes")

/-- Python truthiness `bool(x)` over stack entries: zero/empty values are
falsy; token objects, exception objects and (nonempty) tuples are truthy. -/
def pyTruth : StackVal → Bool
| .val (.int n) => n != 0
| .val (.bool b) => b
| .val (.str s) => s.length != 0
| .val (.bytes bs) => !bs.isEmpty
| .val (.map m) => !m.isEmpty
| .tup xs => !xs.isEmpty
| .tok _ => true
| .exc _ => true

/-- `to_int(v)` of `expressions.py`: ints (and bools) pass through; bytes
fall into the empty / single-byte / big-endian cases; `str` mirrors the
source exactly, where `v[0]` of a `str` is itself a `str`, so `int(v[0])`
only succeeds on a decimal digit character, and `int.from_bytes` on a
multi-character `str` raises `TypeError` (uncaught); every other value
attempts `bytes(v)`, whose `TypeError` becomes the final `ValueError`. -/
def to_int : StackVal → Except PyErr Int
| .val (.int n) => .ok n
| .val (.bool b) => .ok (boolInt b)
| .val (.bytes bs) =>
  match bs with
  | [] => .ok 0
  | [b] => .ok b
  | _ => .ok (fromBytesBE bs)
| .val (.str s) =>
  match s.toList with
  | [] => .ok 0
  | [c] =>
    if c.isDigit then .ok ((c.toNat : Int) - 48)
    else .error (.valueError ("invalid literal for int() with base 10: '" ++ String.singleton c ++ "'"))
  | _ => .error (.typeError "cannot convert 'str' object to bytes")
| v =>
  match pyBytesOf v with
  | .ok bs =>
    match bs with
    | [] => .ok 0
    | [b] => .ok b
    | _ => .ok (fromBytesBE bs)
  | .error (.typeError _) => .error (.valueError "Cannot convert value to an integer")
  | .error e => .error e

/-- Structural equality on `Value` with Python's numeric cross-equality of
`int` and `bool`; mapping equality is modelled structurally (same entry
order), adequate for the dict values the evaluator compares.  The fuel
argument dominates the mapping nesting depth. -/
def valEqF : Nat → Value → Value → Bool
| 0, _, _ => false
| _ + 1, .int m, .int n => m == n
| _ + 1, .int m, .bool b => m == boolInt b
| _ + 1, .bool b, .int n => boolInt b == n
| _ + 1, .bool a, .bool b => a == b
| _ + 1, .str s, .str t => s == t
| _ + 1, .bytes x, .bytes y => x == y
| fuel + 1, .map x, .map y =>
  let rec go : List (String × Value) → List (String × Value) → Bool
  | [], [] => true
  | (k, v) :: xs, (l, w) :: ys => k == l && valEqF fuel v w && go xs ys
  | _, _ => false
  go x y
| _ + 1, _, _ => false

/-- Structural depth of a `Value`, used to supply enough fuel to `valEqF`. -/
def valDepth : Value → Nat
| .map entries =>
  let rec go : List (String × Value) → Nat
  | [] => 0
  | (_, v) :: rest => max (valDepth v) (go rest)
  go entries + 1
| _ => 1

/-- Python `==` on two values. -/
def valEq (a b : Value) : Bool := valEqF (valDepth a + 1) a b

/-- Python `==` on raw stack entries: values compare by `valEq`, tuples
compare elementwise, and distinct token/exception objects compare by
identity (always unequal here, as each stack slot holds a distinct
object). -/
def pyEqF : Nat → StackVal → StackVal → Bool
| 0, _, _ => false
| _ + 1, .val x, .val y => valEq x y
| fuel + 1, .tup xs, .tup ys =>
  let rec go : List StackVal → List StackVal → Bool
  | [], [] => true
  | a :: as_, b :: bs_ => pyEqF fuel a b && go as_ bs_
  | _, _ => false
  go xs ys
| _ + 1, _, _ => false

/-- Structural depth of a `StackVal`, fuel bound for `pyEqF`. -/
def stkDepth : StackVal → Nat
| .tup xs =>
  let rec go : List StackVal → Nat
  | [] => 0
  | v :: rest => max (stkDepth v) (go rest)
  go xs + 1
| _ => 1

/-- Python `==` on stack entries. -/
def pyEq (a b : StackVal) : Bool := pyEqF (stkDepth a + 1) a b

/-- Python `+` applied directly to two operands (the `ADDITION` lambda is
`lambda a, b: a + b`, with no `to_int`): int/bool addition, text
concatenation, byte concatenation, tuple concatenation; any other pairing
raises `TypeError`. -/
def pyAdd : StackVal → StackVal → Except PyErr StackVal
| .val (.int m), .val (.int n) => .ok (.val (.int (m + n)))
| .val (.int m), .val (.bool b) => .ok (.val (.int (m + boolInt b)))
| .val (.bool a), .val (.int n) => .ok (.val (.int (boolInt a + n)))
| .val (.bool a), .val (.bool b) => .ok (.val (.int (boolInt a + boolInt b)))
| .val (.str s), .val (.str t) => .ok (.val (.str (s ++ t)))
| .val (.bytes x), .val (.bytes y) => .ok (.val (.bytes (x ++ y)))
| .tup xs, .tup ys => .ok (.tup (xs ++ ys))
| _, _ => .error (.typeError "unsupported operand type(s) for +")

/-- Lexicographic `<` on byte sequences, as Python compares `bytes`. -/
def bytesLt : List Nat → List Nat → Bool
| [], [] => false
| [], _ :: _ => true
| _ :: _, [] => false
| x :: xs, y :: ys => x < y || (x == y && bytesLt xs ys)

/-- Python `<` on two resolved values: numeric for int/bool, lexicographic
for str and bytes, `TypeError` for every unordered cross-type pairing. -/
def pyLt : StackVal → StackVal → Except PyErr Bool
| .val (.int m), .val (.int n) => .ok (m < n)
| .val (.int m), .val (.bool b) => .ok (m < boolInt b)
| .val (.bool a), .val (.int n) => .ok (boolInt a < n)
| .val (.bool a), .val (.bool b) => .ok (boolInt a < boolInt b)
| .val (.str s), .val (.str t) => .ok (s < t)
| .val (.bytes x), .val (.bytes y) => .ok (bytesLt x y)
| _, _ => .error (.typeError "'<' not supported between operand instances")

/-- Python ordering comparisons derived from `pyLt`/`pyEq` over the same
ordered carriers (`a <= b` iff `a < b` or `a == b`, and flips). -/
def pyLe (a b : StackVal) : Except PyErr Bool := do
  let lt ← pyLt a b
  .ok (lt || pyEq a b)

/-- Two's-complement bitwise combination of two Python ints, computed on a
window wide enough to hold both magnitudes (`|x| + |y| + 2` bits always
suffices); `signBit` is the combiner's
value on the two sign bits, fixing the sign of the result. -/
def intBitwise (f : Nat → Nat → Nat) (signBit : Bool → Bool → Bool) (x y : Int) : Int :=
  let w := x.natAbs + y.natAbs + 2
  let m : Int := (2 : Int) ^ w
  let xn := (x % m).toNat
  let yn := (y % m).toNat
  let r : Int := f xn yn
  if signBit (decide (x < 0)) (decide (y < 0)) then r - m else r

/-- Python `a & b` on ints. -/
def intAnd (x y : Int) : Int := intBitwise Nat.land and x y

/-- Python `a ^ b` on ints. -/
def intXor (x y : Int) : Int := intBitwise Nat.xor xor x y

/-- Python `a | b` on ints. -/
def intOr (x y : Int) : Int := intBitwise Nat.lor or x y

/-- Python `a << b` on ints: `ValueError` on a negative shift count. -/
def intShiftL (x s : Int) : Except PyErr Int :=
  if s < 0 then .error (.valueError "negative shift count")
  else .ok (x * (2 : Int) ^ s.toNat)

/-- Python `a >> b` on ints: arithmetic (floor) shift, `ValueError` on a
negative shift count. -/
def intShiftR (x s : Int) : Except PyErr Int :=
  if s < 0 then .error (.valueError "negative shift count")
  else .ok (Int.fdiv x ((2 : Int) ^ s.toNat))

/-- Python `a // b` on ints: floor division, `ZeroDivisionError` on 0. -/
def intFloorDiv (x y : Int) : Except PyErr Int :=
  if y = 0 then .error (.zeroDivisionError "integer division or modulo by zero")
  else .ok (Int.fdiv x y)

/-- Python `a % b` on ints: sign follows the divisor, `ZeroDivisionError`
on 0. -/
def intPyMod (x y : Int) : Except PyErr Int :=
  if y = 0 then .error (.zeroDivisionError "integer division or modulo by zero")
  else .ok (Int.fmod x y)

/-- Resolution of a Python subscript index for a sequence of length `len`:
negative indices count from the end, anything still out of range is an
error. -/
def seqIndex (len : Nat) (i : Int) : Option Nat :=
  let j := if i < 0 then i + len else i
  if 0 ≤ j ∧ j < len then some j.toNat else none

/-- Python `a[b]` (the `GETITEM` lambda and the subscript part of the
ternary selection): dict lookup by string key (`KeyError` when absent, and
for non-string keys, which our string-keyed mappings never hold), sequence
indexing on bytes/str/tuples with negative-index wrap (bools index as
0/1), `TypeError` on everything unsubscriptable. -/
def pyGetItem : StackVal → StackVal → Except PyErr StackVal
| .val (.map m), .val (.str k) =>
  match lookupAsg k m with
  | some v => .ok (.val v)
  | none => .error (.keyError k)
| .val (.map _), .val (.int n) => .error (.keyError (toString n))
| .val (.map _), .val (.bool b) => .error (.keyError (if b then "True" else "False"))
| .val (.bytes bs), .val (.int i) =>
  match seqIndex bs.length i with
  | some j => .ok (.val (.int (bs.getD j 0)))
  | none => .error (.indexError "index out of range")
| .val (.bytes bs), .val (.bool b) =>
  match seqIndex bs.length (boolInt b) with
  | some j => .ok (.val (.int (bs.getD j 0)))
  | none => .error (.indexError "index out of range")
| .val (.str s), .val (.int i) =>
  match seqIndex s.length i with
  | some j => .ok (.val (.str (String.singleton (s.toList.getD j ' '))))
  | none => .error (.indexError "string index out of range")
| .val (.str s), .val (.bool b) =>
  match seqIndex s.length (boolInt b) with
  | some j => .ok (.val (.str (String.singleton (s.toList.getD j ' '))))
  | none => .error (.indexError "string index out of range")
| .tup xs, .val (.int i) =>
  match seqIndex xs.length i with
  | some j => .ok (xs.getD j (.tup []))
  | none => .error (.indexError "tuple index out of range")
| .tup xs, .val (.bool b) =>
  match seqIndex xs.length (boolInt b) with
  | some j => .ok (xs.getD j (.tup []))
  | none => .error (.indexError "tuple index out of range")
| _, _ => .error (.typeError "object is not subscriptable")

/-- `a[b.name]`: the shared body of the `ENUM_ACCESSOR` lambda and of
`member_access` — the attribute access `b.name` requires `b` to still be
an `IdentifierToken` (`AttributeError` otherwise), then `a` is subscripted
by the raw member name. -/
def member_access : StackVal → StackVal → Except PyErr StackVal
| a, .tok (.identifierToken n) =>
  (match a with
  | .val (.map m) =>
    match lookupAsg n m with
    | some v => .ok (.val v)
    | none => .error (.keyError n)
  | .val (.str _) => .error (.typeError "string indices must be integers")
  | .val (.bytes _) => .error (.typeError "byte indices must be integers")
  | .tup _ => .error (.typeError "tuple indices must be integers")
  | _ => .error (.typeError "object is not subscriptable"))
| _, _ => .error (.attributeError "object has no attribute 'name'")

/-- Single-quoted rendering of a string, as Python `repr` of a `str` (quote
escaping is not modelled; the diagnostic strings involved contain none). -/
def sglq (s : String) : String := "'" ++ s ++ "'"

/-- `str()`/`repr()` of a modelled exception object: `str(KeyError(k))`
shows the quoted key, the other classes show their message. -/
def excText : Bool → PyErr → String
| isRepr, .keyError m => if isRepr then "KeyError(" ++ sglq m ++ ")" else sglq m
| isRepr, .valueError m => if isRepr then "ValueError(" ++ sglq m ++ ")" else m
| isRepr, .typeError m => if isRepr then "TypeError(" ++ sglq m ++ ")" else m
| isRepr, .indexError m => if isRepr then "IndexError(" ++ sglq m ++ ")" else m
| isRepr, .zeroDivisionError m => if isRepr then "ZeroDivisionError(" ++ sglq m ++ ")" else m
| isRepr, .attributeError m => if isRepr then "AttributeError(" ++ sglq m ++ ")" else m
| isRepr, .runtimeError m => if isRepr then "RuntimeError(" ++ sglq m ++ ")" else m

/-- Approximate `repr` of an `Operator` enum member (diagnostics only). -/
def opRepr (op : Operator) : String := "<Operator " ++ op.token ++ ">"

/-- `repr` of a token, following `Token.__repr__` and the subclass
overrides in the source (tokens have no `__str__`, so `str` falls back to
this). -/
def tokRepr : Token → String
| .openParen => "OpenParen()"
| .closeParen => "CloseParen()"
| .openBracket => "OpenBracket()"
| .closeBracket => "CloseBracket()"
| .operatorToken op => "OperatorToken(op=" ++ opRepr op ++ ")"
| .identifierToken n => "IdentifierToken(" ++ sglq n ++ ")"
| .integerToken raw v => "IntegerToken(raw_str=" ++ sglq raw ++ ", value=" ++ toString v ++ ")"

/-- `str()`/`repr()` of a `Value` (fuel dominates mapping depth; byte
sequences render approximately, diagnostics only). -/
def valText : Nat → Bool → Value → String
| 0, _, _ => ""
| _ + 1, _, .int n => toString n
| _ + 1, _, .bool b => if b then "True" else "False"
| _ + 1, isRepr, .str s => if isRepr then sglq s else s
| _ + 1, _, .bytes bs => "b[" ++ String.intercalate ", " (bs.map toString) ++ "]"
| fuel + 1, _, .map entries =>
  let rec go : List (String × Value) → List String
  | [] => []
  | (k, v) :: rest => (sglq k ++ ": " ++ valText fuel true v) :: go rest
  "\x7b" ++ String.intercalate ", " (go entries) ++ "\x7d"

/-- `str()`/`repr()` of a stack entry (fuel dominates tuple depth): tokens
fall back to their `repr`, tuples render their members by `repr`. -/
def stkText : Nat → Bool → StackVal → String
| 0, _, _ => ""
| _ + 1, _, .tok t => tokRepr t
| _ + 1, isRepr, .val v => valText (valDepth v + 1) isRepr v
| _ + 1, isRepr, .exc e => excText isRepr e
| fuel + 1, _, .tup xs =>
  let rec go : List StackVal → List String
  | [] => []
  | v :: rest => stkText fuel true v :: go rest
  "(" ++ String.intercalate ", " (go xs) ++ ")"

/-- `f"{v!s}"` on a stack entry. -/
def pyStr (v : StackVal) : String := stkText (stkDepth v + 1) false v

/-- `f"{v!r}"` on a stack entry. -/
def pyRepr (v : StackVal) : String := stkText (stkDepth v + 1) true v

/-- `repr` of a list of stack entries, as an f-string renders
`values[:-1]` in the malformed-expression error. -/
def stackListRepr (vs : List StackVal) : String :=
  "[" ++ String.intercalate ", " (vs.map pyRepr) ++ "]"

/-- `Expression.get_value`: an `IntegerToken` resolves to its value, an
`IdentifierToken` resolves by lookup in the assignments — raising
`KeyError('Unknown identifier ...')` when the name is absent — and every
other stack entry (resolved values, deferred exception values, tuples,
stray tokens) passes through unchanged. -/
def get_value (token : StackVal) (assignments : Assignments) : Except PyErr StackVal :=
  match token with
  | .tok (.integerToken _ v) => .ok (.val (.int v))
  | .tok (.identifierToken name) =>
    match lookupAsg name assignments with
    | some v => .ok (.val v)
    | none => .error (.keyError ("Unknown identifier " ++ name))
  | t => .ok t

/-- The `execute` lambda of each operator, applied to the argument list
built by the expand loop; a wrong-sized argument list is the Python
`TypeError` of calling the lambda with the wrong argument count. -/
def Operator.execute : Operator → List StackVal → Except PyErr StackVal
| .ENUM_ACCESSOR, [a, b] => member_access a b
| .MEMBER_ACCESS, [a, b] => member_access a b
| .UNARY_PLUS, [a] => .ok a
| .UNARY_MINUS, [a] => do
  let x ← to_int a
  .ok (.val (.int (-x)))
| .LOGICAL_NOT, [a] => .ok (.val (.bool (!pyTruth a)))
| .BITWISE_NOT, [a] => do
  let x ← to_int a
  .ok (.val (.int (-(x + 1))))
| .MULTIPLICATION, [a, b] => do
  let x ← to_int a
  let y ← to_int b
  .ok (.val (.int (x * y)))
| .DIVISION, [a, b] => do
  let x ← to_int a
  let y ← to_int b
  let r ← intFloorDiv x y
  .ok (.val (.int r))
| .REMAINDER, [a, b] => do
  let x ← to_int a
  let y ← to_int b
  let r ← intPyMod x y
  .ok (.val (.int r))
| .ADDITION, [a, b] => pyAdd a b
| .SUBTRACTION, [a, b] => do
  let x ← to_int a
  let y ← to_int b
  .ok (.val (.int (x - y)))
| .BITWISE_LEFT_SHIFT, [a, b] => do
  let x ← to_int a
  let y ← to_int b
  let r ← intShiftL x y
  .ok (.val (.int r))
| .BITWISE_RIGHT_SHIFT, [a, b] => do
  let x ← to_int a
  let y ← to_int b
  let r ← intShiftR x y
  .ok (.val (.int r))
| .LESS_THAN, [a, b] => do
  let r ← pyLt a b
  .ok (.val (.bool r))
| .GREATER_THAN, [a, b] => do
  let r ← pyLt b a
  .ok (.val (.bool r))
| .LESS_THAN_EQUAL, [a, b] => do
  let r ← pyLe a b
  .ok (.val (.bool r))
| .GREATER_THAN_EQUAL, [a, b] => do
  let r ← pyLe b a
  .ok (.val (.bool r))
| .EQUALS, [a, b] => .ok (.val (.bool (pyEq a b)))
| .NOT_EQUAL, [a, b] => .ok (.val (.bool (!pyEq a b)))
| .BITWISE_AND, [a, b] => do
  let x ← to_int a
  let y ← to_int b
  .ok (.val (.int (intAnd x y)))
| .BITWISE_XOR, [a, b] => do
  let x ← to_int a
  let y ← to_int b
  .ok (.val (.int (intXor x y)))
| .BITWISE_OR, [a, b] => do
  let x ← to_int a
  let y ← to_int b
  .ok (.val (.int (intOr x y)))
| .LOGICAL_AND, [a, b] => .ok (if pyTruth a then b else a)
| .LOGICAL_OR, [a, b] => .ok (if pyTruth a then a else b)
| .TERNARY_ELSE, [a, b] => .ok (.tup [a, b])
| .TERNARY_CONDITIONAL, [a, b] => pyGetItem b (.val (.bool (!pyTruth a)))
| .GETITEM, [a, b] => pyGetItem a b
| _, _ => .error (.typeError "wrong number of arguments")

/-- The exception-detection of the expand loop: `exception` ends up holding
the last argument that is an exception object (the loop re-checks
`args[-1]` after each append and only overwrites on a hit). -/
def lastExc (args : List StackVal) : Option PyErr :=
  args.foldl (fun acc a => match a with | .exc e => some e | _ => acc) none

/-- The expand loop of `Expression.interpret`:
`zip(t.op.expand, values[-arity:])` truncates to the shorter list; an
operand position marked for expansion goes through `get_value` (so an
unknown identifier raises here, aborting interpretation), an unmarked one
is passed through raw. -/
def buildArgs (assignments : Assignments) : List Bool → List StackVal → Except PyErr (List StackVal)
| e :: es, v :: vs => do
  let a ← if e then get_value v assignments else .ok v
  let rest ← buildArgs assignments es vs
  .ok (a :: rest)
| _, _ => .ok []

/-- One operator step of `Expression.interpret`: pop `arity` entries, build
the argument list under the expand policy, then either propagate a deferred
exception argument (for every operator except the pass-through ternary
else), execute under the `KeyError`/`Exception` catch for `GETITEM` and
`MEMBER_ACCESS` (deferring the failure as a value), or execute directly —
with the ternary conditional's selected branch expanded afterwards. -/
def interpStep (assignments : Assignments) (op : Operator) (values : List StackVal) :
    Except PyErr (List StackVal) := do
  let popped := values.drop (values.length - op.arity)
  let kept := values.take (values.length - op.arity)
  let args ← buildArgs assignments op.expand popped
  match lastExc args with
  | some e =>
    if op = .TERNARY_ELSE then do
      let r ← op.execute args
      .ok (kept ++ [r])
    else
      .ok (kept ++ [.exc e])
  | none =>
    if op = .GETITEM ∨ op = .MEMBER_ACCESS then
      match op.execute args with
      | .ok r => .ok (kept ++ [r])
      | .error (.keyError _) =>
        .ok (kept ++ [.exc (.keyError (pyStr (popped.getD 0 (.tup [])) ++ "[" ++ pyStr (popped.getD 1 (.tup [])) ++ "]"))])
      | .error e => .ok (kept ++ [.exc e])
    else do
      let r ← op.execute args
      let r2 ← if op = .TERNARY_CONDITIONAL then get_value r assignments else .ok r
      .ok (kept ++ [r2])

/-- The token loop of `Expression.interpret`: operator tokens step the
stack, every other token is pushed unresolved. -/
def interpLoop (assignments : Assignments) : List Token → List StackVal → Except PyErr (List StackVal)
| [], values => .ok values
| .operatorToken op :: rest, values => do
  let values' ← interpStep assignments op values
  interpLoop assignments rest values'
| t :: rest, values => interpLoop assignments rest (values ++ [.tok t])

/-- `Expression.interpret(assignments)` over a postfix token sequence: run
the stack machine, require exactly one remaining entry (else the
malformed-expression `RuntimeError`), resolve it if it is still an
`IdentifierToken`, and raise it if it is a deferred exception value.  A
remaining `IntegerToken` is returned as the token object itself (only
identifier tokens are resolved at this point). -/
def interpret (tokens : List Token) (assignments : Assignments) : Except PyErr StackVal := do
  let values ← interpLoop assignments tokens []
  match values with
  | [v] => do
    let ret ←
      match v with
      | .tok (.identifierToken n) => get_value (.tok (.identifierToken n)) assignments
      | r => .ok r
    match ret with
    | .exc e => .error e
    | r => .ok r
  | vs => .error (.runtimeError ("Unexpected extra tokens: " ++ stackListRepr (vs.take (vs.length - 1))))

/-- The `IDENTIFIER_BYTES` set: ASCII letters, digits, `-` and `_`. -/
def isIdentByte (c : Char) : Bool :=
  ('A' ≤ c && c ≤ 'Z') || ('a' ≤ c && c ≤ 'z') || ('0' ≤ c && c ≤ '9') || c = '-' || c = '_'

/-- The leading-whitespace skip of `Tokenizer.peek` (spaces and tabs). -/
def skipWs : List Char → List Char
| ' ' :: rest => skipWs rest
| '\t' :: rest => skipWs rest
| rest => rest

/-- Value of one digit character for bases up to 16. -/
def digitVal (c : Char) : Option Nat :=
  if '0' ≤ c && c ≤ '9' then some (c.toNat - 48)
  else if 'a' ≤ c && c ≤ 'f' then some (c.toNat - 87)
  else if 'A' ≤ c && c ≤ 'F' then some (c.toNat - 55)
  else none

/-- Digit run of Python `int(s, base)` after the first digit: single
underscores are permitted between digits only. -/
def pyDigitsAux (base : Nat) (acc : Nat) : List Char → Option Nat
| [] => some acc
| '_' :: c :: rest =>
  match digitVal c with
  | some d => if d < base then pyDigitsAux base (acc * base + d) rest else none
  | none => none
| '_' :: [] => none
| c :: rest =>
  match digitVal c with
  | some d => if d < base then pyDigitsAux base (acc * base + d) rest else none
  | none => none

/-- Digit run of Python `int(s, base)`: at least one digit, underscores
between digits; `allowLead` permits one underscore directly after a base
marker (`int('0x_10', 16)` is legal). -/
def pyDigitsTop (base : Nat) (allowLead : Bool) : List Char → Option Nat
| '_' :: rest =>
  if allowLead then
    match rest with
    | c :: rest2 =>
      match digitVal c with
      | some d => if d < base then pyDigitsAux base d rest2 else none
      | none => none
    | [] => none
  else none
| c :: rest =>
  match digitVal c with
  | some d => if d < base then pyDigitsAux base d rest else none
  | none => none
| [] => none

/-- Python `int(s, base)` for bases 2, 8, 10 and 16, restricted to the
whitespace-free strings the tokenizer can produce: an optional sign, an
optional base marker matching the base (none for base 10), then a digit
run.  Returns `none` where Python raises `ValueError`. -/
def pyIntStr (s : String) (base : Nat) : Option Int :=
  let cs := s.toList
  let signed : Bool × List Char :=
    match cs with
    | '-' :: rest => (true, rest)
    | '+' :: rest => (false, rest)
    | rest => (false, rest)
  let body := signed.2
  let stripped : Bool × List Char :=
    match base, body with
    | 16, '0' :: 'x' :: rest => (true, rest)
    | 16, '0' :: 'X' :: rest => (true, rest)
    | 8, '0' :: 'o' :: rest => (true, rest)
    | 8, '0' :: 'O' :: rest => (true, rest)
    | 2, '0' :: 'b' :: rest => (true, rest)
    | 2, '0' :: 'B' :: rest => (true, rest)
    | _, _ => (false, body)
  match pyDigitsTop base stripped.1 stripped.2 with
  | some n => some (if signed.1 then -(n : Int) else (n : Int))
  | none => none

/-- Classification of a completed operand string (the tail of
`Tokenizer.peek`; `operand.startswith(p)` is the 2-character cut test): a
`0x`/`0o`/`0b` marker commits to the matching base —
its parse failure raises `ValueError`, since only the decimal attempt sits
inside the `try` — and otherwise a failed decimal parse falls back to an
`IdentifierToken`. -/
def classifyOperand (s : String) : Except PyErr Token :=
  if s.toList.take 2 = ['0', 'x'] then
    match pyIntStr s 16 with
    | some v => .ok (.integerToken s v)
    | none => .error (.valueError ("invalid literal for int() with base 16: " ++ sglq s))
  else if s.toList.take 2 = ['0', 'o'] then
    match pyIntStr s 8 with
    | some v => .ok (.integerToken s v)
    | none => .error (.valueError ("invalid literal for int() with base 8: " ++ sglq s))
  else if s.toList.take 2 = ['0', 'b'] then
    match pyIntStr s 2 with
    | some v => .ok (.integerToken s v)
    | none => .error (.valueError ("invalid literal for int() with base 2: " ++ sglq s))
  else
    match pyIntStr s 10 with
    | some v => .ok (.integerToken s v)
    | none => .ok (.identifierToken s)

/-- The tokenizer state: the remaining character stream (the source's
`_stream` plus `_buffer`, which behave as one stream in every reachable
use), the lookahead slot `_next_token`, and the `prev_token` record used
for unary/binary disambiguation. -/
structure TState where
  rest : List Char
  nextToken : Option Token := none
  prevToken : Option Token := none
deriving DecidableEq, Repr

/-- Fresh tokenizer over an input string. -/
def initTokenizer (s : String) : TState := { rest := s.toList }

/-- Is the previous token absent or an `OperatorToken` (the unary-context
test for `+`/`-`)?  `OpenParen`/`OpenBracket` are not `OperatorToken`
instances, so they do not put the tokenizer in unary context. -/
def prevIsUnaryCtx : Option Token → Bool
| none => true
| some (.operatorToken _) => true
| some _ => false

/-- The body of `Tokenizer.peek` after whitespace skipping: match the
up-to-3-character lookahead against the operator table (full lookahead,
then its 2-character cut, then the single character with the `+`/`-`
context disambiguation), then delimiters, else accumulate an operand from
the identifier-byte set and classify it.  Returns the token (if any) and
the remaining stream. -/
def peekBody (prev : Option Token) (r : List Char) : Except PyErr (Option Token × List Char) :=
  match r with
  | [] => .ok (none, r)
  | c0 :: r1 =>
    let c3 := r.take 3
    let c2 := r.take 2
    match OPERATORS_BY_NAME (String.mk c3) with
    | some op => .ok (some (.operatorToken op), r.drop c3.length)
    | none =>
      match OPERATORS_BY_NAME (String.mk c2) with
      | some op => .ok (some (.operatorToken op), r.drop c2.length)
      | none =>
        match OPERATORS_BY_NAME (String.mk [c0]) with
        | some op =>
          if c0 = '+' then
            if prevIsUnaryCtx prev then .ok (some (.operatorToken .UNARY_PLUS), r1)
            else .ok (some (.operatorToken .ADDITION), r1)
          else if c0 = '-' then
            if prevIsUnaryCtx prev then .ok (some (.operatorToken .UNARY_MINUS), r1)
            else .ok (some (.operatorToken .SUBTRACTION), r1)
          else .ok (some (.operatorToken op), r1)
        | none =>
          if c0 = '(' then .ok (some .openParen, r1)
          else if c0 = ')' then .ok (some .closeParen, r1)
          else if c0 = '[' then .ok (some .openBracket, r1)
          else if c0 = ']' then .ok (some .closeBracket, r1)
          else if c0 = ' ' ∨ c0 = '\t' then .ok (none, r)
          else
            let operand := c0 :: r1.takeWhile isIdentByte
            match classifyOperand (String.mk operand) with
            | .ok t => .ok (some t, r.drop operand.length)
            | .error e => .error e

/-- `Tokenizer.peek`: returns the cached `_next_token` if one is set (the
source never sets it, so this branch is dead), otherwise skips whitespace
and lexes one token — consuming it from the stream and, faithfully to the
source, NOT storing it into `_next_token`. -/
def Tokenizer.peek (s : TState) : Except PyErr (Option Token × TState) :=
  match s.nextToken with
  | some t => .ok (some t, s)
  | none => do
    let r0 := skipWs s.rest
    let (t?, r1) ← peekBody s.prevToken r0
    .ok (t?, { s with rest := r1 })

/-- `Tokenizer.next`: peek, record the result as `prev_token`, clear
`_next_token`. -/
def Tokenizer.next (s : TState) : Except PyErr (Option Token × TState) := do
  let (t?, s') ← Tokenizer.peek s
  .ok (t?, { s' with prevToken := t?, nextToken := none })

/-- Iteration of `Tokenizer.next` until it reports no next token.  Each
produced token consumes at least one character, so the fuel
`|input| + 1` always suffices. -/
def tokLoop : Nat → TState → Except PyErr (List Token)
| 0, _ => .error (.runtimeError "tokenizer fuel exhausted")
| fuel + 1, s => do
  let (t?, s') ← Tokenizer.next s
  match t? with
  | none => .ok []
  | some t => do
    let rest ← tokLoop fuel s'
    .ok (t :: rest)

/-- `tokenize(stream_or_str)`: the full lazy token sequence, materialised. -/
def tokenize (s : String) : Except PyErr (List Token) :=
  tokLoop (s.length + 1) (initTokenizer s)

/-- The pop loop run when an operator token arrives in `infix_to_rpn`:
pop and yield stack tops while the stack is non-empty, the top is not an
`OpenParen`, and the top's priority is lower (or equal with a
left-associative top).  Faithfully to the source, only `OpenParen` is
tested before the top's `op` attribute is read, so an `OpenBracket` on top
raises `AttributeError` instead of stopping the loop. -/
def popWhileOp (cur : Operator) : List Token → Except PyErr (List Token × List Token)
| [] => .ok ([], [])
| .openParen :: rest => .ok ([], .openParen :: rest)
| .operatorToken top :: rest =>
  if top.priority < cur.priority ∨ (top.priority = cur.priority ∧ top.left_associative) then do
    let (ys, st) ← popWhileOp cur rest
    .ok (.operatorToken top :: ys, st)
  else
    .ok ([], .operatorToken top :: rest)
| .openBracket :: _ => .error (.attributeError "'OpenBracket' object has no attribute 'op'")
| t :: _ => .error (.attributeError ("'" ++ tokRepr t ++ "' object has no attribute 'op'"))

/-- The close-paren pop loop: yield tops until an `OpenParen` is on top
(`IndexError` when the stack runs out, as `operators[-1]` on an empty
list). -/
def popToParen : List Token → Except PyErr (List Token × List Token)
| [] => .error (.indexError "list index out of range")
| .openParen :: rest => .ok ([], .openParen :: rest)
| t :: rest => do
  let (ys, st) ← popToParen rest
  .ok (t :: ys, st)

/-- The close-bracket pop loop: yield tops until an `OpenBracket` is on
top (`IndexError` when the stack runs out). -/
def popToBracket : List Token → Except PyErr (List Token × List Token)
| [] => .error (.indexError "list index out of range")
| .openBracket :: rest => .ok ([], .openBracket :: rest)
| t :: rest => do
  let (ys, st) ← popToBracket rest
  .ok (t :: ys, st)

/-- The drain at end of input: pop and yield everything left on the
operator stack, failing on a leftover parenthesis or bracket. -/
def finalPop : List Token → Except PyErr (List Token)
| [] => .ok []
| .openParen :: _ => .error (.runtimeError "Mismatched parenthesis")
| .closeParen :: _ => .error (.runtimeError "Mismatched parenthesis")
| .openBracket :: _ => .error (.runtimeError "Mismatched brackets")
| .closeBracket :: _ => .error (.runtimeError "Mismatched brackets")
| t :: rest => do
  let ys ← finalPop rest
  .ok (t :: ys)

/-- The token dispatch loop of `infix_to_rpn` over the remaining input,
carrying the operator stack (top at the head). -/
def rpnLoop : List Token → List Token → Except PyErr (List Token)
| [], stack => finalPop stack
| .openParen :: rest, stack => rpnLoop rest (.openParen :: stack)
| .openBracket :: rest, stack => rpnLoop rest (.openBracket :: stack)
| .closeParen :: rest, stack => do
  let (ys, st) ← popToParen stack
  let st2 := st.drop 1
  let out ← rpnLoop rest st2
  .ok (ys ++ out)
| .closeBracket :: rest, stack => do
  let (ys, st) ← popToBracket stack
  let st2 := st.drop 1
  let out ← rpnLoop rest st2
  .ok (ys ++ (.operatorToken .GETITEM :: out))
| .operatorToken op :: rest, stack => do
  let (ys, st) ← popWhileOp op stack
  let out ← rpnLoop rest (.operatorToken op :: st)
  .ok (ys ++ out)
| t :: rest, stack => do
  let out ← rpnLoop rest stack
  .ok (t :: out)

/-- `infix_to_rpn(tokens)`: the Shunting Yard conversion, materialised. -/
def infix_to_rpn (tokens : List Token) : Except PyErr (List Token) :=
  rpnLoop tokens []

/-- `parse(expression_str)`: tokenize then convert to postfix; the
resulting token sequence is the `Expression`'s immutable `tokens` tuple. -/
def parse (s : String) : Except PyErr (List Token) := do
  let ts ← tokenize s
  infix_to_rpn ts

/-- Parse and interpret in one step (`parse(s).interpret(assignments)`);
parse-time and evaluation-time failures share the `Except` error channel. -/
def evalStr (s : String) (assignments : Assignments) : Except PyErr StackVal := do
  let rpn ← parse s
  interpret rpn assignments

/-- C1: the claim says nested-namespace lookup failures during operator
execution are caught and deferred, so `parse("1 ? 2 : x::missing")`
interpreted under `x = {}` returns 2 without raising.  The code disagrees:
the `KeyError` catch in `Expression.interpret` covers only `GETITEM` and
`MEMBER_ACCESS`, not `ENUM_ACCESSOR` — the `::` lookup failure in the
unselected else-branch raises `KeyError('missing')` out of `interpret`.
The companion conjunct shows that the identical member shape through `.`
(which IS in the caught set) is deferred and discarded by the ternary,
returning 2 — evidencing that omitting `ENUM_ACCESSOR` is the slip. -/
theorem C1_enum_accessor_raises :
    evalStr "1 ? 2 : x::missing" [("x", Value.map [])] = .error (.keyError "missing") ∧
    evalStr "1 ? 2 : x.missing" [("x", Value.map [])] = .ok (.val (.int 2)) :=
  ⟨rfl, rfl⟩

/-- C2 counterexample: the claim says an unknown identifier in an
expand-position operand becomes a deferred error value, flowing through
the stack, so a ternary that discards the erroneous sub-result returns
the selected branch.  On the code, `get_value` raises immediately:
`parse("1 ? 2 : undefined + 3").interpret({})` raises
`KeyError('Unknown identifier undefined')` even though the ternary
selects 2. -/
theorem C2_counterexample :
    evalStr "1 ? 2 : undefined + 3" [] = .error (.keyError "Unknown identifier undefined") ∧
    (Except.error (PyErr.keyError "Unknown identifier undefined") : Except PyErr StackVal) ≠
      .ok (.val (.int 2)) :=
  ⟨rfl, by intro h; cases h⟩

/-- C2 amended: an unknown identifier reached by an operand position whose
expand policy is true raises `KeyError` at expansion time, aborting
`interpret` immediately rather than being deferred; an unknown identifier
in the unselected ternary branch escapes only when it is never expanded
(the ternary-else operator passes raw tokens through), as in
`1 ? 2 : undefined`. -/
theorem C2_amended :
    (∀ (assignments : Assignments) (name : String),
      lookupAsg name assignments = none →
      interpret [.identifierToken name, .integerToken "3" 3, .operatorToken .ADDITION] assignments =
        .error (.keyError ("Unknown identifier " ++ name))) ∧
    evalStr "1 ? 2 : undefined" [] = .ok (.val (.int 2)) := by
  constructor
  · intro assignments name h
    simp [interpret, interpLoop, interpStep, buildArgs, get_value, Operator.expand,
      Operator.arity, h]
    rfl
  · rfl

/-- C2 amended, witness: the unknown-identifier abort evaluated at the
concrete name `q` under empty assignments. -/
theorem C2_amended_witness :
    interpret [.identifierToken "q", .integerToken "3" 3, .operatorToken .ADDITION] [] =
      .error (.keyError "Unknown identifier q") :=
  C2_amended.1 [] "q" rfl

/-- C3: the claim describes the operator pop loop guard as stopping on an
open parenthesis OR an open bracket, so `a[b + c]` converts without error.
The code's guard tests only `OpenParen` before reading the top's `op`
attribute: with `OpenBracket` on top of the operator stack the arriving
`+` crashes with `AttributeError`, so `a[b + c]` fails to convert — the
guard omits the open-bracket test the Shunting Yard algorithm (named in
the function's own docstring) requires. -/
theorem C3_bracket_guard_crash :
    tokenize "a[b + c]" =
      .ok [.identifierToken "a", .openBracket, .identifierToken "b",
        .operatorToken .ADDITION, .identifierToken "c", .closeBracket] ∧
    infix_to_rpn [.identifierToken "a", .openBracket, .identifierToken "b",
        .operatorToken .ADDITION, .identifierToken "c", .closeBracket] =
      .error (.attributeError "'OpenBracket' object has no attribute 'op'") :=
  ⟨rfl, rfl⟩

/-- C4: `and`/`or` do not short-circuit — their expand policy is eager on
both operand positions, so `parse("0 and undefined_name").interpret({})`
raises the unknown-identifier failure for `undefined_name` instead of
returning 0. -/
theorem C4_no_short_circuit_and :
    parse "0 and undefined_name" =
      .ok [.integerToken "0" 0, .identifierToken "undefined_name",
        .operatorToken .LOGICAL_AND] ∧
    interpret [.integerToken "0" 0, .identifierToken "undefined_name",
        .operatorToken .LOGICAL_AND] [] =
      .error (.keyError "Unknown identifier undefined_name") ∧
    Operator.expand .LOGICAL_AND = [true, true] ∧
    Operator.expand .LOGICAL_OR = [true, true] :=
  ⟨rfl, rfl, rfl, rfl⟩

/-- C5 counterexample: the claim says a `-` immediately following `(` (or
`[`) is classified as the unary operator.  The tokenizer's unary test is
`prev_token is None or isinstance(prev_token, OperatorToken)`, and an
`OpenParen` is not an `OperatorToken`, so the `-` of `(-4)` lexes as
binary `SUBTRACTION`, not `UNARY_MINUS`. -/
theorem C5_counterexample :
    tokenize "(-4)" =
      .ok [.openParen, .operatorToken .SUBTRACTION, .integerToken "4" 4, .closeParen] ∧
    ([Token.openParen, .operatorToken .SUBTRACTION, .integerToken "4" 4, .closeParen] ≠
      [Token.openParen, .operatorToken .UNARY_MINUS, .integerToken "4" 4, .closeParen]) :=
  ⟨rfl, by decide⟩

/-- C5 amended: a `-` (or `+`) following `)`, `]`, an identifier or an
integer literal is binary, and one following another operator token or at
the very start of the input is unary; but one following `(` or `[` is
ALSO binary, because the unary-context test asks only whether the
previous token is absent or an `OperatorToken`. -/
theorem C5_amended :
    tokenize "-4" = .ok [.operatorToken .UNARY_MINUS, .integerToken "4" 4] ∧
    tokenize "4 - -3" =
      .ok [.integerToken "4" 4, .operatorToken .SUBTRACTION,
        .operatorToken .UNARY_MINUS, .integerToken "3" 3] ∧
    tokenize "(1)-2" =
      .ok [.openParen, .integerToken "1" 1, .closeParen,
        .operatorToken .SUBTRACTION, .integerToken "2" 2] ∧
    tokenize "[1]-2" =
      .ok [.openBracket, .integerToken "1" 1, .closeBracket,
        .operatorToken .SUBTRACTION, .integerToken "2" 2] ∧
    tokenize "a - 2" =
      .ok [.identifierToken "a", .operatorToken .SUBTRACTION, .integerToken "2" 2] ∧
    tokenize "1 - 2" =
      .ok [.integerToken "1" 1, .operatorToken .SUBTRACTION, .integerToken "2" 2] ∧
    tokenize "(-4)" =
      .ok [.openParen, .operatorToken .SUBTRACTION, .integerToken "4" 4, .closeParen] ∧
    tokenize "[-4]" =
      .ok [.openBracket, .operatorToken .SUBTRACTION, .integerToken "4" 4, .closeBracket] :=
  ⟨rfl, rfl, rfl, rfl, rfl, rfl, rfl, rfl⟩

/-- C6 counterexample: the claim includes binary `+` among the operators
coercing both operands to integers via the canonical rule.  `ADDITION` is
`lambda a, b: a + b` with no coercion: on two digit strings it
concatenates (`'7' + '5' = '75'`), while the claimed coercion would
produce the integer 12. -/
theorem C6_counterexample :
    Operator.execute .ADDITION [.val (.str "7"), .val (.str "5")] = .ok (.val (.str "75")) ∧
    (do
      let x ← to_int (.val (.str "7"))
      let y ← to_int (.val (.str "5"))
      Except.ok (StackVal.val (.int (x + y)))) = .ok (.val (.int 12)) ∧
    Value.str "75" ≠ Value.int 12 :=
  ⟨rfl, rfl, by intro h; cases h⟩

/-- C6 amended: the operators `*`, `/`, `%`, binary `-`, `<<`, `>>`, `&`,
`^`, `|` all coerce both operands through `to_int` before computing, and
`to_int` implements: integers (and bools) pass through; byte sequences map
empty to 0, a single byte to its value, and longer sequences to the
big-endian magnitude; text maps empty to 0, a single character through
`int(c)` (only a decimal digit succeeds), and longer text to an uncaught
`TypeError`; mappings fail the byte-conversion attempt and raise the
coercion `ValueError`.  Binary `+` is excluded: it applies the host `+`
directly (see the C6 counterexample). -/
theorem C6_amended :
    (∀ a b, Operator.execute .MULTIPLICATION [a, b] = do
      let x ← to_int a
      let y ← to_int b
      Except.ok (StackVal.val (.int (x * y)))) ∧
    (∀ a b, Operator.execute .DIVISION [a, b] = do
      let x ← to_int a
      let y ← to_int b
      let r ← intFloorDiv x y
      Except.ok (StackVal.val (.int r))) ∧
    (∀ a b, Operator.execute .REMAINDER [a, b] = do
      let x ← to_int a
      let y ← to_int b
      let r ← intPyMod x y
      Except.ok (StackVal.val (.int r))) ∧
    (∀ a b, Operator.execute .SUBTRACTION [a, b] = do
      let x ← to_int a
      let y ← to_int b
      Except.ok (StackVal.val (.int (x - y)))) ∧
    (∀ a b, Operator.execute .BITWISE_LEFT_SHIFT [a, b] = do
      let x ← to_int a
      let y ← to_int b
      let r ← intShiftL x y
      Except.ok (StackVal.val (.int r))) ∧
    (∀ a b, Operator.execute .BITWISE_RIGHT_SHIFT [a, b] = do
      let x ← to_int a
      let y ← to_int b
      let r ← intShiftR x y
      Except.ok (StackVal.val (.int r))) ∧
    (∀ a b, Operator.execute .BITWISE_AND [a, b] = do
      let x ← to_int a
      let y ← to_int b
      Except.ok (StackVal.val (.int (intAnd x y)))) ∧
    (∀ a b, Operator.execute .BITWISE_XOR [a, b] = do
      let x ← to_int a
      let y ← to_int b
      Except.ok (StackVal.val (.int (intXor x y)))) ∧
    (∀ a b, Operator.execute .BITWISE_OR [a, b] = do
      let x ← to_int a
      let y ← to_int b
      Except.ok (StackVal.val (.int (intOr x y)))) ∧
    (∀ n : Int, to_int (.val (.int n)) = .ok n) ∧
    (∀ b : Bool, to_int (.val (.bool b)) = .ok (boolInt b)) ∧
    to_int (.val (.bytes [])) = .ok 0 ∧
    (∀ b : Nat, to_int (.val (.bytes [b])) = .ok b) ∧
    to_int (.val (.bytes [5, 6])) = .ok 1286 ∧
    to_int (.val (.str "")) = .ok 0 ∧
    to_int (.val (.str "7")) = .ok 7 ∧
    to_int (.val (.str "a")) = .error (.valueError "invalid literal for int() with base 10: 'a'") ∧
    to_int (.val (.str "ab")) = .error (.typeError "cannot convert 'str' object to bytes") ∧
    (∀ m, to_int (.val (.map m)) = .error (.valueError "Cannot convert value to an integer")) ∧
    evalStr "x * y" [("x", .bytes [1, 2]), ("y", .str "5")] = .ok (.val (.int 1290)) :=
  ⟨fun _ _ => rfl, fun _ _ => rfl, fun _ _ => rfl, fun _ _ => rfl, fun _ _ => rfl,
    fun _ _ => rfl, fun _ _ => rfl, fun _ _ => rfl, fun _ _ => rfl, fun _ => rfl,
    fun _ => rfl, rfl, fun _ => rfl, rfl, rfl, rfl, rfl, rfl, fun _ => rfl, rfl⟩

/-- C7: the claim says `peek` is a non-consuming one-token lookahead (two
consecutive peeks agree, and peek-then-next yields the peeked token).  The
source's `peek` never writes `self._next_token` — even though it checks
that cache on entry and `next` clears it — so every `peek` lexes and
consumes a fresh token: on the input `a b` two consecutive peeks return
the two DIFFERENT identifiers.  The conjunct on `prevToken` confirms the
one part the code does honor: `peek` leaves the disambiguation record
untouched. -/
theorem C7_peek_consumes :
    Tokenizer.peek (initTokenizer "a b") =
      .ok (some (.identifierToken "a"),
        { rest := [' ', 'b'], nextToken := none, prevToken := none }) ∧
    Tokenizer.peek { rest := [' ', 'b'], nextToken := none, prevToken := none } =
      .ok (some (.identifierToken "b"),
        { rest := [], nextToken := none, prevToken := none }) ∧
    Token.identifierToken "a" ≠ Token.identifierToken "b" :=
  ⟨rfl, rfl, by decide⟩

/-- C8 counterexample: the claim says an operand matching none of the four
numeric forms becomes an identifier token, never a lexing failure, naming
`0xg` as the example.  Only the decimal attempt sits inside the
`try/except`: `0xg` enters the `0x` branch, where `int('0xg', 16)` raises
an uncaught `ValueError`, so tokenization fails instead of producing
`IdentifierToken('0xg')`. -/
theorem C8_counterexample :
    tokenize "0xg" = .error (.valueError "invalid literal for int() with base 16: '0xg'") ∧
    classifyOperand "0xg" =
      .error (.valueError "invalid literal for int() with base 16: '0xg'") ∧
    (Except.error (PyErr.valueError "invalid literal for int() with base 16: '0xg'") :
      Except PyErr Token) ≠ .ok (.identifierToken "0xg") :=
  ⟨rfl, rfl, by intro h; cases h⟩

/-- C8 amended: an operand without a `0x`/`0o`/`0b` marker is classified
as an integer literal exactly when it parses as decimal and as an
identifier otherwise (never a failure); a marker commits to its base,
recovering the exact value the marker implies (`0x10` is 16, `0b101` is
5, `0o17` is 15) but raising `ValueError` when the rest of the operand is
invalid in that base. -/
theorem C8_amended :
    (∀ s : String, s.toList.take 2 ≠ ['0', 'x'] → s.toList.take 2 ≠ ['0', 'o'] →
      s.toList.take 2 ≠ ['0', 'b'] → ∀ e : PyErr, classifyOperand s ≠ .error e) ∧
    tokenize "0x10" = .ok [.integerToken "0x10" 16] ∧
    tokenize "0b101" = .ok [.integerToken "0b101" 5] ∧
    tokenize "0o17" = .ok [.integerToken "0o17" 15] ∧
    tokenize "123" = .ok [.integerToken "123" 123] ∧
    tokenize "abc" = .ok [.identifierToken "abc"] := by
  refine ⟨?_, rfl, rfl, rfl, rfl, rfl⟩
  intro s h1 h2 h3 e
  simp only [classifyOperand, if_neg h1, if_neg h2, if_neg h3]
  cases pyIntStr s 10 <;> simp

/-- C8 amended, witness: the markerless branch applied at the concrete
operand `abc`, which cannot be a lexing failure. -/
theorem C8_amended_witness :
    classifyOperand "abc" ≠ .error (.valueError "boom") :=
  C8_amended.1 "abc" (by decide) (by decide) (by decide) (.valueError "boom")

/-- C9: the claim says a normally-returning `interpret` yields an integer,
byte/text sequence, mapping or boolean, and in particular
`parse("5").interpret({})` returns the integer 5.  The final resolution
step handles only a remaining `IdentifierToken`: a bare integer literal is
returned as the `IntegerToken` OBJECT itself, not the integer 5 — although
`get_value` (which the surrounding code uses for exactly this purpose)
would have resolved it. -/
theorem C9_bare_literal_token :
    evalStr "5" [] = .ok (.tok (.integerToken "5" 5)) ∧
    StackVal.tok (.integerToken "5" 5) ≠ StackVal.val (.int 5) :=
  ⟨rfl, by intro h; cases h⟩

/-- C10: parsing an empty or all-whitespace input succeeds with an empty
postfix sequence, and interpreting that empty sequence raises the
malformed-expression `RuntimeError` for every assignments mapping — the
final `len(values) != 1` check fires on the empty stack too. -/
theorem C10_empty_input :
    parse "" = .ok [] ∧
    parse "  \t " = .ok [] ∧
    ∀ assignments : Assignments,
      interpret [] assignments = .error (.runtimeError "Unexpected extra tokens: []") :=
  ⟨rfl, rfl, fun _ => rfl⟩
